import Mathlib

/-!
# DLSS integration header (`Source/DLSS/DLSSIntegration.h`)

A shallow embedding of the declarations of `DLSSIntegration.h`: the quality
enumeration, the descriptor structures with their default member initialisers,
the data members of `DlssIntegration`, and the functions whose bodies are
written in the header (the constructor, the destructor, `IsInitialized` and
`SetupDeviceExtensions`).  The five member functions the header only declares
are modelled from the specification of the component, each marked as such.

Conventions.
* A C++ pointer is an `Option Nat`: `none` is `nullptr`, `some a` is the
  address `a`.
* `unsigned int` and `uint64_t` members are natural numbers; the header does no
  arithmetic on them.
* `float` members are never computed with in the header, only initialised from
  the literals `0.0f` and `1.0f`; they are held as the exact rational value of
  the literal.
-/

namespace DLSS

/-- A C++ pointer: `none` is `nullptr`, `some a` is the address `a`. -/
abbrev Ptr := Option Nat

/-- Modelled from the spec: `NVSDK_NGX_Dimensions` comes from the vendor header
`nvsdk_ngx_helpers.h`, which is not among the sources.  It is the pair of
unsigned dimensions the spec calls a resolution; `= {}` value-initialises both
members to zero. -/
structure NVSDK_NGX_Dimensions where
  Width : Nat := 0
  Height : Nat := 0
deriving DecidableEq, Repr

end DLSS

namespace nri

/-- Modelled from the spec: `nri::Format` is declared in `NRIDescs.hpp`, which
is not among the sources.  The header names only the enumerator `UNKNOWN`; every
other format is kept abstract by its numeric code. -/
inductive Format where
  | UNKNOWN
  | other (code : Nat)
deriving DecidableEq, Repr

/-- Modelled from the spec: `nri::VulkanExtensions`, the member
`vulkanExtensions` of `nri::DeviceCreationDesc` (declared in
`Extensions/NRIDeviceCreation.h`, not among the sources).  The four members are
the ones `SetupDeviceExtensions` stores to; the two arrays are held by their
address. -/
structure VulkanExtensions where
  instanceExtensions : DLSS.Ptr := none
  instanceExtensionNum : Nat := 0
  deviceExtensions : DLSS.Ptr := none
  deviceExtensionNum : Nat := 0
deriving DecidableEq, Repr

/-- Modelled from the spec: `nri::DeviceCreationDesc`, the device-creation
configuration structure (declared in `Extensions/NRIDeviceCreation.h`, not among
the sources).  Everything but `vulkanExtensions` is kept abstract in `rest`. -/
structure DeviceCreationDesc (Rest : Type) where
  vulkanExtensions : VulkanExtensions := {}
  rest : Rest

end nri

namespace DLSS

/-! ## Descriptor types (header lines 20-74) -/

/-- The `enum class DlssQuality` of the header, enumerators in declaration
order. -/
inductive DlssQuality where
  | ULTRA_PERFORMANCE
  | PERFORMANCE
  | BALANCED
  | QUALITY
  | MAX_NUM
deriving DecidableEq, Repr, Fintype

/-- Underlying integer of an enumerator: no enumerator has an explicit value, so
the first is `0` and each next one is the previous plus one. -/
def DlssQuality.value : DlssQuality → Nat
  | .ULTRA_PERFORMANCE => 0
  | .PERFORMANCE => 1
  | .BALANCED => 2
  | .QUALITY => 3
  | .MAX_NUM => 4

/-- The `struct DlssSettings` of the header ("This is retrieved from DLSS"). -/
structure DlssSettings where
  renderResolution : NVSDK_NGX_Dimensions := {}
  maxRenderResolution : NVSDK_NGX_Dimensions := {}
  minRenderResolution : NVSDK_NGX_Dimensions := {}
  sharpness : ℚ := 0
deriving DecidableEq

/-- The `struct DlssInitDesc` of the header. -/
structure DlssInitDesc where
  outputResolution : NVSDK_NGX_Dimensions := {}
  quality : DlssQuality := DlssQuality.QUALITY
  isContentHDR : Bool := false
  isDepthInverted : Bool := false
  isMotionVectorAtLowRes : Bool := true
  enableAutoExposure : Bool := false
deriving DecidableEq

/-- The `struct DlssTexture` of the header. -/
structure DlssTexture where
  texture : Ptr := none
  descriptor : Ptr := none
  format : nri.Format := nri.Format.UNKNOWN
  dims : NVSDK_NGX_Dimensions := {}
deriving DecidableEq

/-- The `struct DlssDispatchDesc` of the header; the two `float[2]` members are
pairs. -/
structure DlssDispatchDesc where
  texOutput : DlssTexture := {}
  texInput : DlssTexture := {}
  texMv : DlssTexture := {}
  texDepth : DlssTexture := {}
  texExposure : DlssTexture := {}
  currentRenderResolution : NVSDK_NGX_Dimensions := {}
  jitter : ℚ × ℚ := (0, 0)
  motionVectorScale : ℚ × ℚ := (1, 1)
  sharpness : ℚ := 0
  reset : Bool := false
deriving DecidableEq

/-! ## The integration object (header lines 76-124) -/

/-- The private `struct NRIInterface`: two function tables inherited from
`nri::CoreInterface` and `nri::WrapperVKInterface` (declared outside the
sources).  A table is held by the address of what filled it, `none` while it is
value-initialised. -/
structure NRIInterface where
  core : Ptr := none
  wrapperVK : Ptr := none
deriving DecidableEq, Repr

/-- The data members of `class DlssIntegration` with their default member
initialisers. -/
structure DlssIntegration where
  NRI : NRIInterface := {}
  m_Device : Ptr := none
  m_DLSS : Ptr := none
  m_NgxParameters : Ptr := none
  m_ApplicationId : Nat := 0
  m_Initialized : Bool := false
deriving DecidableEq, Repr

/-- The constructor `DlssIntegration()`: its body is empty, so every member
takes its default member initialiser. -/
def DlssIntegration.create : DlssIntegration := {}

/-- The accessor `IsInitialized() const`: returns `m_Initialized`. -/
def DlssIntegration.IsInitialized (s : DlssIntegration) : Bool :=
  s.m_Initialized

/-! ## Device-extension setup (header lines 94-105) -/

/-- What the vendor routine `NVSDK_NGX_VULKAN_RequiredExtensions` stores through
its four out-pointers: the number of instance extensions, the array of their
names, the number of device extensions and the array of their names. -/
structure NVSDK_NGX_VULKAN_RequiredExtensions where
  instanceNum : Nat
  instanceExt : Ptr
  deviceNum : Nat
  deviceExt : Ptr
deriving DecidableEq, Repr

/-- The static helper `SetupDeviceExtensions(desc)`.  The vendor routine writes
the two counts straight into `desc.vulkanExtensions` and the two arrays into the
locals `instanceExt` and `deviceExt`, which are then assigned to the two array
members.  It is `static`: there is no `DlssIntegration` argument. -/
def SetupDeviceExtensions {Rest : Type} (ngx : NVSDK_NGX_VULKAN_RequiredExtensions)
    (desc : nri.DeviceCreationDesc Rest) : nri.DeviceCreationDesc Rest :=
  -- NVSDK_NGX_VULKAN_RequiredExtensions(&...instanceExtensionNum, &instanceExt,
  --                                     &...deviceExtensionNum, &deviceExt)
  let desc1 : nri.DeviceCreationDesc Rest :=
    { desc with vulkanExtensions :=
        { desc.vulkanExtensions with
            instanceExtensionNum := ngx.instanceNum
            deviceExtensionNum := ngx.deviceNum } }
  let instanceExt := ngx.instanceExt
  let deviceExt := ngx.deviceExt
  -- desc.vulkanExtensions.instanceExtensions = instanceExt
  let desc2 : nri.DeviceCreationDesc Rest :=
    { desc1 with vulkanExtensions :=
        { desc1.vulkanExtensions with instanceExtensions := instanceExt } }
  -- desc.vulkanExtensions.deviceExtensions = deviceExt
  { desc2 with vulkanExtensions :=
      { desc2.vulkanExtensions with deviceExtensions := deviceExt } }

/-! ## The member functions declared in the header and defined elsewhere

`InitializeLibrary`, `GetOptimalSettings`, `Initialize`, `Evaluate` and
`Shutdown` are declared at header lines 88-92; their bodies are in a translation
unit that is not among the sources.  They are modelled below from the
specification of the component (sections 4.1 and 7), over the data members of
the header.  The vendor runtime, a closed library, enters as a record of the
answers it gives. -/

/-- Modelled from the spec: the vendor runtime (the closed NGX library the
member functions forward to), as the answers it gives.  `load` answers the
library load with the capability-parameter block, or `none` when "the vendor
runtime cannot be located or is incompatible with the active graphics driver";
`optimalSettings` answers the settings query, `none` when "the combination is
unsupported by the runtime"; `allocate` tells whether the resources of the
one-time GPU work could be allocated on the queue; `createFeature` answers the
feature creation with the new feature handle, `none` when "the requested
configuration is rejected by the runtime"; `evaluate` tells whether the vendor
evaluate call succeeded. -/
structure NgxRuntime where
  load : (device : Nat) → (appDataPath : String) → (applicationId : Nat) → Option Nat
  optimalSettings : NVSDK_NGX_Dimensions → DlssQuality → Option DlssSettings
  allocate : (commandQueue : Ptr) → Bool
  createFeature : (parameters : Ptr) → DlssInitDesc → Option Nat
  evaluate : (feature : Ptr) → (commandBuffer : Ptr) → DlssDispatchDesc → Bool

/-- Modelled from the spec: the "uninitialized state" that `Shutdown` resets to
and that a failed `Initialize` leaves, the body of neither being among the
sources: no feature handle and `m_Initialized` false.  The library stays loaded
("{Active} -> (shutdown) -> {Loaded}"). -/
def DlssIntegration.uninitialized (s : DlssIntegration) : DlssIntegration :=
  { s with m_DLSS := none, m_Initialized := false }

/-- Modelled from the spec: `InitializeLibrary(device, appDataPath,
applicationId)`, whose body is not among the sources.  "Accepts a
graphics-device handle, an application-data storage path, and an application
identifier; establishes the vendor SDK's logging/telemetry context for the
process.  Fails (returns a failure indicator) if the vendor runtime cannot be
located or is incompatible with the active graphics driver."  Returns the object
after the call and the returned flag. -/
def DlssIntegration.InitializeLibrary (s : DlssIntegration) (rt : NgxRuntime)
    (device : Nat) (appDataPath : String) (applicationId : Nat) :
    DlssIntegration × Bool :=
  match rt.load device appDataPath applicationId with
  | some parameters =>
      ({ s with m_Device := some device, m_ApplicationId := applicationId,
                m_NgxParameters := some parameters }, true)
  | none => (s, false)

/-- Modelled from the spec: `GetOptimalSettings(outputResolution, quality,
outSettings) const`, whose body is not among the sources.  "Read-only; has no
effect on internal state ...  Fails if the library was not loaded or the
combination is unsupported by the runtime."  The member function is declared
`const` and the class has no `mutable` member, so the object is only read;
the result is the returned flag and the content of `outSettings` after the
call. -/
def DlssIntegration.GetOptimalSettings (s : DlssIntegration) (rt : NgxRuntime)
    (outputResolution : NVSDK_NGX_Dimensions) (quality : DlssQuality)
    (outSettings : DlssSettings) : Bool × DlssSettings :=
  match s.m_NgxParameters with
  | none => (false, outSettings)
  | some _ =>
      match rt.optimalSettings outputResolution quality with
      | some settings => (true, settings)
      | none => (false, outSettings)

/-- Modelled from the spec: `Initialize(commandQueue, desc)`, whose body is not
among the sources.  "Constructs the vendor feature handle sized for the
requested output resolution and quality/content flags ...  Side effect: issues
one-time GPU work on the given queue ...  Fails if resources cannot be
allocated or the requested configuration is rejected by the runtime."  "A
failed Initialize leaves the object in the uninitialized state."  There is "no
guard against double-initialization": a handle already held is overwritten.
Returns the object after the call and the returned flag. -/
def DlssIntegration.Initialize (s : DlssIntegration) (rt : NgxRuntime)
    (commandQueue : Ptr) (desc : DlssInitDesc) : DlssIntegration × Bool :=
  if rt.allocate commandQueue then
    match rt.createFeature s.m_NgxParameters desc with
    | some feature => ({ s with m_DLSS := some feature, m_Initialized := true }, true)
    | none => (s.uninitialized, false)
  else
    (s.uninitialized, false)

/-- Outcome of one `Evaluate` call: the object after it, and whether a debug
assertion fired (the process is aborted). -/
structure EvaluateResult where
  state : DlssIntegration
  assertionFailed : Bool
deriving DecidableEq

/-- Modelled from the spec: `Evaluate(commandBuffer, desc)`, whose body is not
among the sources.  "Binds the output/input textures as native resource views,
sets jitter/motion-scale/sharpness/reset parameters on the vendor runtime, and
records the upscaling workload into the command context ...  No return value;
failures inside the vendor runtime are not surfaced as errors to the caller at
this layer (asserted only in debug builds)."  "Internal assertion checks exist
only to catch programmer misuse (e.g., calling before initialization) in debug
builds and are compiled out otherwise."  The object "does not retain references
across calls": it is left as it was.  `debug` tells whether assertions are
compiled in.  With assertions compiled out nothing is reported; which vendor
calls are then made on an object that is not initialised is not said by the
specification and is not modelled. -/
def DlssIntegration.Evaluate (s : DlssIntegration) (debug : Bool) (rt : NgxRuntime)
    (commandBuffer : Ptr) (desc : DlssDispatchDesc) : EvaluateResult :=
  if debug && !s.m_Initialized then
    -- the assertion on the initialised state fires
    { state := s, assertionFailed := true }
  else
    { state := s
      assertionFailed := debug && !rt.evaluate s.m_DLSS commandBuffer desc }

/-- Outcome of one `Shutdown` call: the object after it and the feature handle
passed to the vendor release entry point (`none`: no release call was made). -/
structure ShutdownResult where
  state : DlssIntegration
  released : Option Ptr
deriving DecidableEq

/-- Modelled from the spec: `Shutdown()`, whose body is not among the sources.
"Releases the vendor feature handle and resets internal state to uninitialized;
safe to call when already uninitialized (no-op)." -/
def DlssIntegration.Shutdown (s : DlssIntegration) : ShutdownResult :=
  if s.m_Initialized then
    { state := s.uninitialized, released := some s.m_DLSS }
  else
    { state := s, released := none }

/-- The destructor `~DlssIntegration()`: its body is `Shutdown();`. -/
def DlssIntegration.destroy (s : DlssIntegration) : ShutdownResult :=
  s.Shutdown

/-! ## Call sequences -/

/-- One call of a public member function, with its arguments. -/
inductive Call where
  | InitializeLibrary (device : Nat) (appDataPath : String) (applicationId : Nat)
  | GetOptimalSettings (outputResolution : NVSDK_NGX_Dimensions) (quality : DlssQuality)
      (outSettings : DlssSettings)
  | Initialize (commandQueue : Ptr) (desc : DlssInitDesc)
  | Evaluate (commandBuffer : Ptr) (desc : DlssDispatchDesc)
  | Shutdown
deriving DecidableEq

/-- What a call gave back: a flag, a flag with the content of `outSettings`, or
nothing. -/
inductive Ret where
  | bool (b : Bool)
  | settings (ok : Bool) (outSettings : DlssSettings)
  | void
deriving DecidableEq

/-- One call on the object `s` against the vendor runtime as it is at that
moment; `none` when a debug assertion aborted the process. -/
def step (debug : Bool) (s : DlssIntegration) (rt : NgxRuntime) :
    Call → Option (DlssIntegration × Ret)
  | .InitializeLibrary device appDataPath applicationId =>
      let r := s.InitializeLibrary rt device appDataPath applicationId
      some (r.1, Ret.bool r.2)
  | .GetOptimalSettings outputResolution quality outSettings =>
      let r := s.GetOptimalSettings rt outputResolution quality outSettings
      some (s, Ret.settings r.1 r.2)
  | .Initialize commandQueue desc =>
      let r := s.Initialize rt commandQueue desc
      some (r.1, Ret.bool r.2)
  | .Evaluate commandBuffer desc =>
      let r := s.Evaluate debug rt commandBuffer desc
      if r.assertionFailed then none else some (r.state, Ret.void)
  | .Shutdown => some (s.Shutdown.state, Ret.void)

/-- A sequence of calls from the object `s`, each against the vendor runtime as
it is when the call is made.  Gives the object after the last call and the log
of the calls with what each gave back; `none` when a debug assertion aborted
the process on the way. -/
def run (debug : Bool) :
    DlssIntegration → List (NgxRuntime × Call) → Option (DlssIntegration × List (Call × Ret))
  | s, [] => some (s, [])
  | s, (rt, c) :: rest =>
      match step debug s rt c with
      | none => none
      | some (s1, r) =>
          match run debug s1 rest with
          | none => none
          | some (s2, log) => some (s2, (c, r) :: log)

/-- Whether the call is an `Initialize`. -/
def Call.isInitialize : Call → Bool
  | .Initialize _ _ => true
  | _ => false

/-- Whether the call is a `Shutdown`. -/
def Call.isShutdown : Call → Bool
  | .Shutdown => true
  | _ => false

/-- The specification's condition on a log, in its words: "the most recent
Initialize succeeded and no subsequent Shutdown has occurred".  There is an
`Initialize` in the log that returned `true`, and no `Initialize` and no
`Shutdown` comes after it. -/
def LastInitializeSucceeded (log : List (Call × Ret)) : Prop :=
  ∃ (before after : List (Call × Ret)) (commandQueue : Ptr) (desc : DlssInitDesc),
    log = before ++ (Call.Initialize commandQueue desc, Ret.bool true) :: after ∧
    ∀ e ∈ after, e.1.isInitialize = false ∧ e.1.isShutdown = false

/-- Effect of one log entry on the flag of the object: an `Initialize` sets it
to what it returned, a `Shutdown` clears it, any other call keeps it. -/
def flagAfter (b : Bool) (e : Call × Ret) : Bool :=
  if e.1.isInitialize then decide (e.2 = Ret.bool true)
  else if e.1.isShutdown then false
  else b

/-- A vendor runtime that accepts everything: used to run the model on concrete
inputs. -/
def acceptingRuntime : NgxRuntime where
  load := fun _ _ _ => some 100
  optimalSettings := fun outputResolution _ =>
    some { renderResolution := outputResolution, maxRenderResolution := outputResolution }
  allocate := fun _ => true
  createFeature := fun _ _ => some 7
  evaluate := fun _ _ _ => true

/-- A vendor runtime that rejects everything. -/
def rejectingRuntime : NgxRuntime where
  load := fun _ _ _ => none
  optimalSettings := fun _ _ => none
  allocate := fun _ => true
  createFeature := fun _ _ => none
  evaluate := fun _ _ _ => false

/-- An object in the Active state: library loaded, feature handle `7` held. -/
def activeObject : DlssIntegration :=
  { m_Device := some 1, m_DLSS := some 7, m_NgxParameters := some 100,
    m_ApplicationId := 231313132, m_Initialized := true }

/-- A frame loop: load the library, create the feature, evaluate one frame, query
the settings. -/
def frameCalls : List (NgxRuntime × Call) :=
  [(acceptingRuntime, Call.InitializeLibrary 1 "appdata" 231313132),
   (acceptingRuntime, Call.Initialize (some 2) {}),
   (acceptingRuntime, Call.Evaluate (some 3) {}),
   (acceptingRuntime, Call.GetOptimalSettings {} DlssQuality.QUALITY {})]

/-! ## Theorems about the header -/

/-- C9: `DlssQuality` has the four tiers `ULTRA_PERFORMANCE = 0`,
`PERFORMANCE = 1`, `BALANCED = 2`, `QUALITY = 3` in that order, the sentinel
`MAX_NUM` is `4`, which is the number of enumerators other than the sentinel,
and every enumerator other than the sentinel has a value strictly below
`MAX_NUM`. -/
theorem DlssQuality_values :
    DlssQuality.ULTRA_PERFORMANCE.value = 0 ∧
    DlssQuality.PERFORMANCE.value = 1 ∧
    DlssQuality.BALANCED.value = 2 ∧
    DlssQuality.QUALITY.value = 3 ∧
    DlssQuality.MAX_NUM.value = 4 ∧
    (Finset.univ.filter (fun q : DlssQuality => q ≠ DlssQuality.MAX_NUM)).card = 4 ∧
    (Finset.univ.filter (fun q : DlssQuality => q ≠ DlssQuality.MAX_NUM)).card
      = DlssQuality.MAX_NUM.value ∧
    (∀ q : DlssQuality, q = DlssQuality.MAX_NUM ∨ q.value < DlssQuality.MAX_NUM.value) ∧
    (∀ q : DlssQuality, q = DlssQuality.ULTRA_PERFORMANCE ∨ q = DlssQuality.PERFORMANCE ∨
      q = DlssQuality.BALANCED ∨ q = DlssQuality.QUALITY ∨ q = DlssQuality.MAX_NUM) := by
  refine ⟨rfl, rfl, rfl, rfl, rfl, by decide, by decide, ?_, ?_⟩ <;>
    intro q <;> cases q <;> decide

/-- C10: a default-constructed `DlssInitDesc` has quality `QUALITY`, a zero
output resolution, `isMotionVectorAtLowRes = true` and the other three flags
false; a default-constructed `DlssDispatchDesc` has `reset = false`, jitter
`(0, 0)`, motion-vector scale `(1, 1)`, sharpness `0`, and each of its five
texture bindings has a null texture, a null descriptor and format `UNKNOWN`. -/
theorem default_descs :
    (({} : DlssInitDesc).quality = DlssQuality.QUALITY ∧
     ({} : DlssInitDesc).outputResolution.Width = 0 ∧
     ({} : DlssInitDesc).outputResolution.Height = 0 ∧
     ({} : DlssInitDesc).isMotionVectorAtLowRes = true ∧
     ({} : DlssInitDesc).isContentHDR = false ∧
     ({} : DlssInitDesc).isDepthInverted = false ∧
     ({} : DlssInitDesc).enableAutoExposure = false) ∧
    (({} : DlssDispatchDesc).reset = false ∧
     ({} : DlssDispatchDesc).jitter = (0, 0) ∧
     ({} : DlssDispatchDesc).motionVectorScale = (1, 1) ∧
     ({} : DlssDispatchDesc).sharpness = 0) ∧
    (∀ t ∈ [({} : DlssDispatchDesc).texOutput, ({} : DlssDispatchDesc).texInput,
            ({} : DlssDispatchDesc).texMv, ({} : DlssDispatchDesc).texDepth,
            ({} : DlssDispatchDesc).texExposure],
       t.texture = none ∧ t.descriptor = none ∧ t.format = nri.Format.UNKNOWN) := by
  refine ⟨⟨rfl, rfl, rfl, rfl, rfl, rfl, rfl⟩, ⟨rfl, rfl, rfl, rfl⟩, ?_⟩
  intro t ht
  simp only [List.mem_cons, List.mem_singleton, List.not_mem_nil, or_false] at ht
  rcases ht with h | h | h | h | h <;> subst h <;> exact ⟨rfl, rfl, rfl⟩

/-- C5: right after the constructor `IsInitialized()` is false and the object
owns nothing: `m_DLSS`, `m_NgxParameters` and `m_Device` are null and
`m_ApplicationId` is `0`. -/
theorem create_uninitialized :
    DlssIntegration.create.IsInitialized = false ∧
    DlssIntegration.create.m_DLSS = none ∧
    DlssIntegration.create.m_NgxParameters = none ∧
    DlssIntegration.create.m_Device = none ∧
    DlssIntegration.create.m_ApplicationId = 0 :=
  ⟨rfl, rfl, rfl, rfl, rfl⟩

/-- C7: after `SetupDeviceExtensions` the four members of
`desc.vulkanExtensions` hold exactly the two counts and the two arrays the
vendor routine reported, the rest of `desc` is untouched, and the result is the
same whatever `desc.vulkanExtensions` held before; the helper takes no
`DlssIntegration`. -/
theorem SetupDeviceExtensions_writes {Rest : Type}
    (ngx : NVSDK_NGX_VULKAN_RequiredExtensions) (desc : nri.DeviceCreationDesc Rest) :
    (SetupDeviceExtensions ngx desc).vulkanExtensions.instanceExtensionNum = ngx.instanceNum ∧
    (SetupDeviceExtensions ngx desc).vulkanExtensions.instanceExtensions = ngx.instanceExt ∧
    (SetupDeviceExtensions ngx desc).vulkanExtensions.deviceExtensionNum = ngx.deviceNum ∧
    (SetupDeviceExtensions ngx desc).vulkanExtensions.deviceExtensions = ngx.deviceExt ∧
    (SetupDeviceExtensions ngx desc).rest = desc.rest ∧
    (∀ previous : nri.VulkanExtensions,
      SetupDeviceExtensions ngx { desc with vulkanExtensions := previous }
        = SetupDeviceExtensions ngx desc) :=
  ⟨rfl, rfl, rfl, rfl, rfl, fun _ => rfl⟩

/-! ## Lemmas on the modelled member functions -/

theorem Initialize_flag (s : DlssIntegration) (rt : NgxRuntime) (commandQueue : Ptr)
    (desc : DlssInitDesc) :
    (s.Initialize rt commandQueue desc).1.m_Initialized
      = (s.Initialize rt commandQueue desc).2 := by
  unfold DlssIntegration.Initialize
  split
  · split <;> rfl
  · rfl

theorem Shutdown_flag (s : DlssIntegration) : s.Shutdown.state.m_Initialized = false := by
  unfold DlssIntegration.Shutdown
  split
  · rfl
  · rename_i h
    simpa using h

theorem Shutdown_of_not_initialized (s : DlssIntegration) (h : s.m_Initialized = false) :
    s.Shutdown = { state := s, released := none } := by
  simp [DlssIntegration.Shutdown, h]

theorem InitializeLibrary_keeps (s : DlssIntegration) (rt : NgxRuntime) (device : Nat)
    (appDataPath : String) (applicationId : Nat) :
    (s.InitializeLibrary rt device appDataPath applicationId).1.m_Initialized = s.m_Initialized ∧
    (s.InitializeLibrary rt device appDataPath applicationId).1.m_DLSS = s.m_DLSS := by
  unfold DlssIntegration.InitializeLibrary
  split <;> exact ⟨rfl, rfl⟩

theorem Evaluate_state (s : DlssIntegration) (debug : Bool) (rt : NgxRuntime)
    (commandBuffer : Ptr) (desc : DlssDispatchDesc) :
    (s.Evaluate debug rt commandBuffer desc).state = s := by
  unfold DlssIntegration.Evaluate
  split <;> rfl

/-- One step moves the flag of the object as `flagAfter` says. -/
theorem step_flag (debug : Bool) (s s1 : DlssIntegration) (rt : NgxRuntime) (c : Call)
    (r : Ret) (h : step debug s rt c = some (s1, r)) :
    s1.m_Initialized = flagAfter s.m_Initialized (c, r) := by
  cases c with
  | InitializeLibrary device appDataPath applicationId =>
      simp only [step, Option.some.injEq, Prod.mk.injEq] at h
      obtain ⟨rfl, rfl⟩ := h
      simp [flagAfter, Call.isInitialize, Call.isShutdown, InitializeLibrary_keeps]
  | GetOptimalSettings outputResolution quality outSettings =>
      simp only [step, Option.some.injEq, Prod.mk.injEq] at h
      obtain ⟨rfl, rfl⟩ := h
      simp [flagAfter, Call.isInitialize, Call.isShutdown]
  | Initialize commandQueue desc =>
      simp only [step, Option.some.injEq, Prod.mk.injEq] at h
      obtain ⟨rfl, rfl⟩ := h
      simp [flagAfter, Call.isInitialize, Initialize_flag]
  | Evaluate commandBuffer desc =>
      simp only [step] at h
      split at h
      · exact absurd h (by simp)
      · simp only [Option.some.injEq, Prod.mk.injEq] at h
        obtain ⟨rfl, rfl⟩ := h
        simp [flagAfter, Call.isInitialize, Call.isShutdown, Evaluate_state]
  | Shutdown =>
      simp only [step, Option.some.injEq, Prod.mk.injEq] at h
      obtain ⟨rfl, rfl⟩ := h
      simp [flagAfter, Call.isInitialize, Call.isShutdown, Shutdown_flag]

/-- Unfolding of `run` on a non-empty sequence that completes. -/
theorem run_cons_some (debug : Bool) (s s2 : DlssIntegration) (rt : NgxRuntime) (c : Call)
    (rest : List (NgxRuntime × Call)) (log : List (Call × Ret))
    (h : run debug s ((rt, c) :: rest) = some (s2, log)) :
    ∃ s1 r log1, step debug s rt c = some (s1, r) ∧ run debug s1 rest = some (s2, log1) ∧
      log = (c, r) :: log1 := by
  simp only [run] at h
  split at h
  · exact absurd h (by simp)
  · rename_i s1 r hstep
    split at h
    · exact absurd h (by simp)
    · rename_i s2a log1 hrun
      simp only [Option.some.injEq, Prod.mk.injEq] at h
      obtain ⟨rfl, rfl⟩ := h
      exact ⟨s1, r, log1, hstep, hrun, rfl⟩

/-- After a sequence that completes, the flag of the object is the fold of
`flagAfter` over the log. -/
theorem run_flag (debug : Bool) (calls : List (NgxRuntime × Call)) :
    ∀ (s s2 : DlssIntegration) (log : List (Call × Ret)),
      run debug s calls = some (s2, log) →
      s2.m_Initialized = log.foldl flagAfter s.m_Initialized := by
  induction calls with
  | nil =>
      intro s s2 log h
      simp only [run, Option.some.injEq, Prod.mk.injEq] at h
      obtain ⟨rfl, rfl⟩ := h
      rfl
  | cons x rest ih =>
      intro s s2 log h
      obtain ⟨rt, c⟩ := x
      obtain ⟨s1, r, log1, hstep, hrun, rfl⟩ := run_cons_some debug s s2 rt c rest log h
      rw [List.foldl_cons, ← step_flag debug s s1 rt c r hstep]
      exact ih s1 s2 log1 hrun

/-- Without assertions every sequence of calls completes. -/
theorem run_release_total (calls : List (NgxRuntime × Call)) :
    ∀ s : DlssIntegration, ∃ s2 log, run false s calls = some (s2, log) := by
  induction calls with
  | nil => intro s; exact ⟨s, [], rfl⟩
  | cons x rest ih =>
      intro s
      obtain ⟨rt, c⟩ := x
      have hstep : ∃ s1 r, step false s rt c = some (s1, r) := by
        cases c <;> simp [step, DlssIntegration.Evaluate]
      obtain ⟨s1, r, hstep⟩ := hstep
      obtain ⟨s2, log1, hrun⟩ := ih s1
      exact ⟨s2, (c, r) :: log1, by simp [run, hstep, hrun]⟩

/-- The condition of the specification on a log with one more entry in front. -/
theorem LastInitializeSucceeded_cons (e : Call × Ret) (log : List (Call × Ret)) :
    LastInitializeSucceeded (e :: log) ↔
      LastInitializeSucceeded log ∨
      ((e.1.isInitialize = true ∧ e.2 = Ret.bool true) ∧
        ∀ x ∈ log, x.1.isInitialize = false ∧ x.1.isShutdown = false) := by
  constructor
  · rintro ⟨before, after, commandQueue, desc, heq, hafter⟩
    cases before with
    | nil =>
        simp only [List.nil_append, List.cons.injEq] at heq
        obtain ⟨rfl, rfl⟩ := heq
        exact Or.inr ⟨⟨rfl, rfl⟩, hafter⟩
    | cons b before1 =>
        simp only [List.cons_append, List.cons.injEq] at heq
        obtain ⟨_, rfl⟩ := heq
        exact Or.inl ⟨before1, after, commandQueue, desc, rfl, hafter⟩
  · rintro (⟨before, after, commandQueue, desc, rfl, hafter⟩ | ⟨⟨h1, h2⟩, hafter⟩)
    · exact ⟨e :: before, after, commandQueue, desc, rfl, hafter⟩
    · obtain ⟨c, r⟩ := e
      cases c with
      | Initialize commandQueue desc =>
          simp only at h2
          subst h2
          exact ⟨[], log, commandQueue, desc, rfl, hafter⟩
      | _ => simp [Call.isInitialize] at h1

/-- The fold of `flagAfter` over a log is true exactly when the condition of the
specification holds on the log, or the flag was true at the start and the log
has neither an `Initialize` nor a `Shutdown`. -/
theorem foldl_flagAfter_iff (log : List (Call × Ret)) :
    ∀ b : Bool, log.foldl flagAfter b = true ↔
      LastInitializeSucceeded log ∨
      (b = true ∧ ∀ x ∈ log, x.1.isInitialize = false ∧ x.1.isShutdown = false) := by
  induction log with
  | nil =>
      intro b
      simp only [List.foldl_nil, List.not_mem_nil, false_implies, implies_true, and_true]
      constructor
      · intro h; exact Or.inr h
      · rintro (⟨before, after, _, _, heq, _⟩ | h)
        · exact absurd heq (by simp)
        · exact h
  | cons e rest ih =>
      intro b
      rw [List.foldl_cons, ih, LastInitializeSucceeded_cons]
      simp only [List.mem_cons, forall_eq_or_imp]
      unfold flagAfter
      by_cases h1 : e.1.isInitialize = true
      · simp only [h1, if_true, decide_eq_true_eq]
        constructor
        · rintro (h | ⟨h2, h3⟩)
          · exact Or.inl (Or.inl h)
          · exact Or.inl (Or.inr ⟨⟨trivial, h2⟩, h3⟩)
        · rintro ((h | ⟨⟨_, h2⟩, h3⟩) | ⟨_, ⟨h4, _⟩, _⟩)
          · exact Or.inl h
          · exact Or.inr ⟨h2, h3⟩
          · simp at h4
      · have h1f : e.1.isInitialize = false := by simpa using h1
        by_cases h2 : e.1.isShutdown = true
        · simp [h1f, h2]
        · have h2f : e.1.isShutdown = false := by simpa using h2
          simp [h1f, h2f]

/-! ## Theorems about the lifecycle -/

/-- C1: for every sequence of InitializeLibrary / GetOptimalSettings /
Initialize / Evaluate / Shutdown calls on a newly constructed object, the
sequence completes when assertions are compiled out, and whenever it completes
`IsInitialized()` is true afterwards if and only if the most recent `Initialize`
of the sequence returned true and no `Shutdown` came after it. -/
theorem IsInitialized_iff_last_Initialize (calls : List (NgxRuntime × Call)) :
    (∃ s log, run false DlssIntegration.create calls = some (s, log)) ∧
    ∀ (debug : Bool) (s : DlssIntegration) (log : List (Call × Ret)),
      run debug DlssIntegration.create calls = some (s, log) →
      (s.IsInitialized = true ↔ LastInitializeSucceeded log) := by
  refine ⟨run_release_total calls DlssIntegration.create, ?_⟩
  intro debug s log h
  have hf := run_flag debug calls DlssIntegration.create s log h
  unfold DlssIntegration.IsInitialized
  rw [hf, foldl_flagAfter_iff]
  constructor
  · rintro (h1 | ⟨h2, _⟩)
    · exact h1
    · exact absurd h2 (by decide)
  · intro h1
    exact Or.inl h1

/-- The frame loop run on a new object ends initialised, and its log meets the
condition of the specification. -/
theorem IsInitialized_iff_last_Initialize_witness :
    run true DlssIntegration.create frameCalls
      = some (activeObject,
          [(Call.InitializeLibrary 1 "appdata" 231313132, Ret.bool true),
           (Call.Initialize (some 2) {}, Ret.bool true),
           (Call.Evaluate (some 3) {}, Ret.void),
           (Call.GetOptimalSettings {} DlssQuality.QUALITY {}, Ret.settings true {})]) ∧
    activeObject.IsInitialized = true ∧
    LastInitializeSucceeded
      [(Call.InitializeLibrary 1 "appdata" 231313132, Ret.bool true),
       (Call.Initialize (some 2) {}, Ret.bool true),
       (Call.Evaluate (some 3) {}, Ret.void),
       (Call.GetOptimalSettings {} DlssQuality.QUALITY {}, Ret.settings true {})] :=
  ⟨rfl, rfl, ((IsInitialized_iff_last_Initialize frameCalls).2 true activeObject _ rfl).1 rfl⟩

/-- C2: from every object state, an `Initialize(commandQueue, desc)` call that
returns false leaves the object uninitialized: `IsInitialized()` is false
afterwards. -/
theorem Initialize_fail_uninitialized (s : DlssIntegration) (rt : NgxRuntime)
    (commandQueue : Ptr) (desc : DlssInitDesc)
    (h : (s.Initialize rt commandQueue desc).2 = false) :
    (s.Initialize rt commandQueue desc).1.IsInitialized = false := by
  unfold DlssIntegration.IsInitialized
  rw [Initialize_flag]
  exact h

/-- A rejected `Initialize` on an Active object returns false and leaves it
uninitialized. -/
theorem Initialize_fail_uninitialized_witness :
    (activeObject.Initialize rejectingRuntime (some 2) {}).2 = false ∧
    (activeObject.Initialize rejectingRuntime (some 2) {}).1.IsInitialized = false :=
  ⟨rfl, Initialize_fail_uninitialized activeObject rejectingRuntime (some 2) {} rfl⟩

/-- C3: `Shutdown` is idempotent: from every object state a second `Shutdown`
leaves the state the first one produced and releases nothing; `Shutdown` on an
uninitialized object changes nothing and releases nothing; after any `Shutdown`
`IsInitialized()` is false. -/
theorem Shutdown_idempotent (s : DlssIntegration) :
    s.Shutdown.state.Shutdown.state = s.Shutdown.state ∧
    s.Shutdown.state.Shutdown.released = none ∧
    (s.IsInitialized = false → s.Shutdown = { state := s, released := none }) ∧
    s.Shutdown.state.IsInitialized = false := by
  have hflag := Shutdown_flag s
  refine ⟨?_, ?_, ?_, hflag⟩
  · rw [Shutdown_of_not_initialized _ hflag]
  · rw [Shutdown_of_not_initialized _ hflag]
  · intro h
    exact Shutdown_of_not_initialized s h

/-- `Shutdown` twice on an Active object, and `Shutdown` on a new object. -/
theorem Shutdown_idempotent_witness :
    activeObject.Shutdown.state.Shutdown.state = activeObject.Shutdown.state ∧
    DlssIntegration.create.IsInitialized = false ∧
    DlssIntegration.create.Shutdown = { state := DlssIntegration.create, released := none } :=
  ⟨(Shutdown_idempotent activeObject).1, rfl,
    (Shutdown_idempotent DlssIntegration.create).2.2.1 rfl⟩

/-- C6: the destructor does exactly what one `Shutdown` call does, from every
object state; the object is uninitialized afterwards, and from an initialized
(Active) state the feature handle the object holds is passed to the vendor
release and no handle is held afterwards. -/
theorem destroy_eq_Shutdown (s : DlssIntegration) :
    s.destroy = s.Shutdown ∧
    s.destroy.state.IsInitialized = false ∧
    (s.IsInitialized = true →
      s.destroy.released = some s.m_DLSS ∧ s.destroy.state.m_DLSS = none) := by
  refine ⟨rfl, Shutdown_flag s, ?_⟩
  intro h
  unfold DlssIntegration.IsInitialized at h
  simp [DlssIntegration.destroy, DlssIntegration.Shutdown, h, DlssIntegration.uninitialized]

/-- Destroying an Active object releases its feature handle `7`. -/
theorem destroy_eq_Shutdown_witness :
    activeObject.IsInitialized = true ∧
    activeObject.destroy.released = some (some 7) ∧
    activeObject.destroy.state.m_DLSS = none ∧
    DlssIntegration.create.destroy = DlssIntegration.create.Shutdown :=
  ⟨rfl, ((destroy_eq_Shutdown activeObject).2.2 rfl).1,
    ((destroy_eq_Shutdown activeObject).2.2 rfl).2,
    (destroy_eq_Shutdown DlssIntegration.create).1⟩

/-- C8: `GetOptimalSettings` only reads the object: from every object state and
for every output resolution and quality tier the call leaves the object as it
was, and a second call with the same inputs against the same runtime gives the
same flag and the same `outSettings` as the first, whether `outSettings` held
its first content or the result of the first call. -/
theorem GetOptimalSettings_read_only (debug : Bool) (rt : NgxRuntime) (s : DlssIntegration)
    (outputResolution : NVSDK_NGX_Dimensions) (quality : DlssQuality)
    (outSettings : DlssSettings) :
    run debug s
        [(rt, Call.GetOptimalSettings outputResolution quality outSettings),
         (rt, Call.GetOptimalSettings outputResolution quality outSettings)]
      = some (s,
          [(Call.GetOptimalSettings outputResolution quality outSettings,
             Ret.settings (s.GetOptimalSettings rt outputResolution quality outSettings).1
               (s.GetOptimalSettings rt outputResolution quality outSettings).2),
           (Call.GetOptimalSettings outputResolution quality outSettings,
             Ret.settings (s.GetOptimalSettings rt outputResolution quality outSettings).1
               (s.GetOptimalSettings rt outputResolution quality outSettings).2)]) ∧
    s.GetOptimalSettings rt outputResolution quality
        (s.GetOptimalSettings rt outputResolution quality outSettings).2
      = s.GetOptimalSettings rt outputResolution quality outSettings := by
  refine ⟨rfl, ?_⟩
  unfold DlssIntegration.GetOptimalSettings
  cases s.m_NgxParameters with
  | none => rfl
  | some parameters =>
      cases rt.optimalSettings outputResolution quality with
      | none => rfl
      | some settings => rfl

end DLSS
